import Mathlib

/-!
Verification of the speculos-client library (src/lib.rs) against its
natural-language specification.  The Rust code is shallowly embedded:
the JSON wire values produced by the serde serializers are modelled by
an inductive `Json` type, the hex codec used via the serde attribute
with hex on the APDU payload fields is modelled by `encodeHex` and
`decodeHex` (faithful to the hex crate: lower-case encoding; decoding
accepts both cases and fails on odd length or a non-hex character),
and the process-supervision and HTTP paths are modelled as explicit
functions of their external inputs (spawn result, captured stderr
lines, HTTP send result).
-/

namespace Speculos

/-- JSON values, the codomain of the embedded serde serializers. -/
inductive Json where
  | str (s : String)
  | num (n : Nat)
  | bool (b : Bool)
  | arr (elems : List Json)
  | obj (fields : List (String × Json))

/-- Assoc-list lookup of a field in a serialized object, first match wins. -/
def lookupField (k : String) : List (String × Json) → Option Json
  | [] => none
  | (k2, v) :: rest => if k2 = k then some v else lookupField k rest

/-- Field lookup on a JSON value; non-objects have no fields. -/
def Json.lookup (j : Json) (k : String) : Option Json :=
  match j with
  | .obj fields => lookupField k fields
  | _ => none

/-- The ordered list of keys of a serialized object (empty for non-objects). -/
def Json.objKeys : Json → List String
  | .obj fields => fields.map Prod.fst
  | _ => []

/-- Whether a JSON value is a named-field object. -/
def Json.isObj : Json → Bool
  | .obj _ => true
  | _ => false

/-! Hex codec, the embedding of the hex crate as used through the serde
field attribute with hex on the data fields of PostApduRequest and
PostApduResponse (src/lib.rs lines 123-133). -/

/-- Lower-case hex digit for a nibble, as produced by the hex crate encoder. -/
def hexDigit (n : Nat) : Char :=
  if n < 10 then Char.ofNat (48 + n) else Char.ofNat (87 + n)

/-- The two lower-case hex characters of one byte, high nibble first. -/
def byteChars (b : Nat) : List Char :=
  [hexDigit (b / 16), hexDigit (b % 16)]

/-- Hex encoding of a byte buffer as a character list. -/
def encodeHexChars (bs : List Nat) : List Char :=
  (bs.map byteChars).flatten

/-- Hex encoding of a byte buffer: lower-case, even-length, no separators,
no 0x prefix. -/
def encodeHex (bs : List Nat) : String :=
  String.mk (encodeHexChars bs)

/-- Value of one hex character; the hex crate decoder accepts both cases. -/
def hexVal (c : Char) : Option Nat :=
  if 48 ≤ c.toNat ∧ c.toNat ≤ 57 then some (c.toNat - 48)
  else if 97 ≤ c.toNat ∧ c.toNat ≤ 102 then some (c.toNat - 87)
  else if 65 ≤ c.toNat ∧ c.toNat ≤ 70 then some (c.toNat - 55)
  else none

/-- Hex decoding of a character list: fails (returns none) on odd length or
on any non-hex character, otherwise yields the byte buffer. -/
def decodeHexChars : List Char → Option (List Nat)
  | [] => some []
  | [_] => none
  | c1 :: c2 :: rest =>
    match hexVal c1, hexVal c2, decodeHexChars rest with
    | some hi, some lo, some tl => some ((hi * 16 + lo) :: tl)
    | _, _, _ => none

/-- Hex decoding of a string, the embedding of the hex crate FromHex for
byte vectors. -/
def decodeHex (s : String) : Option (List Nat) :=
  decodeHexChars s.data

/-- A hex text is malformed when its length is odd or some character is not
a hex digit (the two failure conditions named by the spec). -/
def malformedHex (s : String) : Bool :=
  s.data.length % 2 == 1 || s.data.any fun c => (hexVal c).isNone

/-! Data model of the automation protocol (src/lib.rs lines 45-112). -/

/-- Ledger buttons (src/lib.rs Button). -/
inductive Button where
  | left
  | right

/-- Speculos automation actions (src/lib.rs AutomationAction). -/
inductive AutomationAction where
  | button (b : Button) (pressed : Bool)
  | finger (x : Nat) (y : Nat) (touched : Bool)
  | setbool (varname : String) (value : Bool)
  | exit

/-- Condition for Speculos automation rules (src/lib.rs AutomationCondition). -/
structure AutomationCondition where
  varname : String
  value : Bool

/-- Speculos automation rule (src/lib.rs AutomationRule): four optional
matcher fields and two lists. -/
structure AutomationRule where
  text : Option String
  regexp : Option String
  x : Option Nat
  y : Option Nat
  conditions : List AutomationCondition
  actions : List AutomationAction

/-- Numeric wire code of a button, from the match inside the Serialize impl
for AutomationAction (src/lib.rs lines 260-263). -/
def buttonCode : Button → Nat
  | .left => 1
  | .right => 2

/-- Embedding of the manual Serialize impl for AutomationCondition
(src/lib.rs lines 239-249): a two-element sequence, varname then value. -/
def serializeCondition (c : AutomationCondition) : Json :=
  Json.arr [Json.str c.varname, Json.bool c.value]

/-- Embedding of the manual Serialize impl for AutomationAction
(src/lib.rs lines 251-289): a tag-prefixed positional array per variant. -/
def serializeAction : AutomationAction → Json
  | .button b pressed => Json.arr [Json.str "button", Json.num (buttonCode b), Json.bool pressed]
  | .finger x y touched => Json.arr [Json.str "finger", Json.num x, Json.num y, Json.bool touched]
  | .setbool varname value => Json.arr [Json.str "setbool", Json.str varname, Json.bool value]
  | .exit => Json.arr [Json.str "exit"]

/-- Embedding of the derived Serialize for AutomationRule (src/lib.rs lines
46-64): fields in declaration order; the four optional fields carry the
serde attribute skipping serialization when the option is none, so an
absent option contributes no key at all. -/
def serializeRule (r : AutomationRule) : Json :=
  Json.obj
    ((match r.text with | some t => [("text", Json.str t)] | none => [])
      ++ (match r.regexp with | some t => [("regexp", Json.str t)] | none => [])
      ++ (match r.x with | some n => [("x", Json.num n)] | none => [])
      ++ (match r.y with | some n => [("y", Json.num n)] | none => [])
      ++ [("conditions", Json.arr (r.conditions.map serializeCondition))]
      ++ [("actions", Json.arr (r.actions.map serializeAction))])

/-- Embedding of the derived Serialize for PostAutomationRequest (src/lib.rs
lines 135-139) as constructed by SpeculosClient.automation with version
hardcoded to 1 (src/lib.rs line 210). -/
def serializeAutomationRequest (rules : List AutomationRule) : Json :=
  Json.obj [("version", Json.num 1), ("rules", Json.arr (rules.map serializeRule))]

/-- Embedding of the derived Serialize for PostApduRequest (src/lib.rs lines
123-127): a single data field holding the hex text of the payload. -/
def serializeApduRequest (data : List Nat) : Json :=
  Json.obj [("data", Json.str (encodeHex data))]

/-- Embedding of the derived Deserialize for PostApduResponse (src/lib.rs
lines 129-133): the body must be an object with a data field whose string
value decodes as hex; anything else is a deserialization failure. -/
def parseApduResponse (body : Json) : Option (List Nat) :=
  match body.lookup "data" with
  | some (Json.str s) => decodeHex s
  | _ => none

/-! Process supervision (src/lib.rs lines 141-223). -/

/-- Speculos client errors (src/lib.rs SpeculosError): system IO errors or
HTTP errors from the transport. -/
inductive SpeculosError where
  | IoError
  | ReqwestError (failedStatus : Option Nat)

/-- The owned emulator subprocess, observed through whether it is still
running. -/
structure Child where
  running : Bool

/-- Embedding of the standard-library kill on a child process: signals the
process; per its documentation an already-exited child yields an
invalid-input IO error.  Returns the IO result together with the process
state after the request. -/
def Child.kill (c : Child) : (Except SpeculosError Unit) × Child :=
  if c.running then (Except.ok (), Child.mk false)
  else (Except.error SpeculosError.IoError, c)

/-- Observable events of the disposal path. -/
inductive DropEvent where
  | killRequested (result : Except SpeculosError Unit)

/-- Embedding of the Drop impl for SpeculosClient (src/lib.rs lines
219-223): one kill request whose IO result is bound to the wildcard and
discarded; the function returns unit, so no error can be surfaced. -/
def dropSpeculosClient (c : Child) : List DropEvent × Child :=
  ((fun p => ([DropEvent.killRequested p.1], p.2)) c.kill)

/-- The readiness marker substring scanned for on the emulator stderr
(src/lib.rs line 171). -/
def readinessMarker : String :=
  "launcher: using default app name & version"

/-- Whether a stderr line contains the readiness marker, the embedding of
the contains call on each line. -/
def lineContainsMarker (l : String) : Bool :=
  (l.splitOn readinessMarker).length ≥ 2

/-- Embedding of the readiness-wait loop (src/lib.rs lines 167-175): read
lines until one contains the marker or the stream ends; the loop produces
no value and distinguishes neither outcome. -/
def waitReady : List String → Unit
  | [] => ()
  | l :: rest => if lineContainsMarker l then () else waitReady rest

/-- The live client handle (src/lib.rs SpeculosClient), minus the HTTP
transport object which carries no state relevant here beyond its fixed
timeout. -/
structure SpeculosClient where
  process : Child
  port : Nat

/-- Embedding of SpeculosClient.new (src/lib.rs lines 147-185) as a
function of its external inputs: the spawn result and the lines the
captured stderr stream produces before ending.  A spawn failure is
propagated; otherwise the readiness loop runs on the lines and
construction returns the handle. -/
def speculosNew (port : Nat) (spawnResult : Except SpeculosError Child)
    (stderrLines : List String) : Except SpeculosError SpeculosClient :=
  match spawnResult with
  | Except.error e => Except.error e
  | Except.ok child =>
    let _ := waitReady stderrLines
    Except.ok (SpeculosClient.mk child port)

/-! The two HTTP operations (src/lib.rs lines 187-216). -/

/-- An HTTP response as delivered by a successful transport exchange. -/
structure HttpResponse where
  status : Nat
  body : Json

/-- The outcome of a Rust call that may return a value, return an error, or
panic. -/
inductive RustOutcome (α : Type) where
  | ok (a : α)
  | err (e : SpeculosError)
  | panicked

/-- The error, if any, carried by an outcome. -/
def RustOutcome.errOf : RustOutcome α → Option SpeculosError
  | .err e => some e
  | _ => none

/-- The returned value, if any, carried by an outcome. -/
def RustOutcome.okOf : RustOutcome α → Option α
  | .ok a => some a
  | _ => none

/-- HTTP success statuses (the 2xx class). -/
def isSuccessStatus (s : Nat) : Bool :=
  200 ≤ s && s ≤ 299

/-- Embedding of the reqwest error-for-status check called by automation
(src/lib.rs line 214): the response turns into an error exactly when the
status is a client error (4xx) or a server error (5xx). -/
def errorForStatus (r : HttpResponse) : Except SpeculosError HttpResponse :=
  if 400 ≤ r.status ∧ r.status ≤ 599 then
    Except.error (SpeculosError.ReqwestError (some r.status))
  else Except.ok r

/-- Embedding of SpeculosClient.apdu (src/lib.rs lines 193-203) as a
function of the transport outcome of the POST: a transport failure is
propagated via the question-mark operator; on transport success the body
is parsed as a PostApduResponse and the parse result is unwrapped, so a
malformed body panics; the HTTP status is never inspected. -/
def apduOp (sendResult : Except SpeculosError HttpResponse) : RustOutcome (List Nat) :=
  match sendResult with
  | Except.error e => RustOutcome.err e
  | Except.ok r =>
    match parseApduResponse r.body with
    | some data => RustOutcome.ok data
    | none => RustOutcome.panicked

/-- Embedding of SpeculosClient.automation (src/lib.rs lines 206-216): a
transport failure is propagated; on transport success the status is
checked via error-for-status, and an error status is returned to the
caller. -/
def automationOp (sendResult : Except SpeculosError HttpResponse) :
    Except SpeculosError Unit :=
  match sendResult with
  | Except.error e => Except.error e
  | Except.ok r =>
    match errorForStatus r with
    | Except.error e => Except.error e
    | Except.ok _ => Except.ok ()

/-! Helper lemmas about the hex codec. -/

/-- Decoding inverts encoding on a single nibble. -/
theorem hexVal_hexDigit (n : Nat) (h : n < 16) : hexVal (hexDigit n) = some n := by
  interval_cases n <;> decide

/-- Encoding a buffer one byte longer prepends the two characters of that
byte. -/
theorem encodeHexChars_cons (b : Nat) (rest : List Nat) :
    encodeHexChars (b :: rest) = byteChars b ++ encodeHexChars rest := rfl

/-- Hex encoding produces two characters per byte. -/
theorem encodeHexChars_length (bs : List Nat) :
    (encodeHexChars bs).length = 2 * bs.length := by
  induction bs with
  | nil => rfl
  | cons b rest ih =>
    simp [encodeHexChars_cons, byteChars, ih]
    omega

/-- Decoding inverts encoding on byte buffers. -/
theorem decodeHexChars_encode (bs : List Nat) (h : ∀ b ∈ bs, b < 256) :
    decodeHexChars (encodeHexChars bs) = some bs := by
  induction bs with
  | nil => rfl
  | cons b rest ih =>
    have hb : b < 256 := h b (by simp)
    have hrest : ∀ x ∈ rest, x < 256 := fun x hx => h x (by simp [hx])
    have h1 : hexVal (hexDigit (b / 16)) = some (b / 16) :=
      hexVal_hexDigit _ (by omega)
    have h2 : hexVal (hexDigit (b % 16)) = some (b % 16) :=
      hexVal_hexDigit _ (by omega)
    rw [encodeHexChars_cons]
    simp [byteChars, decodeHexChars, h1, h2, ih hrest]
    omega

/-- Decoding fails on any malformed character list (odd length or a
non-hex character). -/
theorem decodeHexChars_malformed (cs : List Char)
    (h : ((cs.length % 2 == 1) || cs.any fun c => (hexVal c).isNone) = true) :
    decodeHexChars cs = none :=
  match cs with
  | [] => by simp at h
  | [_] => rfl
  | c1 :: c2 :: rest => by
    rcases hc1 : hexVal c1 with _ | hi
    · simp [decodeHexChars, hc1]
    · rcases hc2 : hexVal c2 with _ | lo
      · simp [decodeHexChars, hc1, hc2]
      · have hrest : ((rest.length % 2 == 1) || rest.any fun c => (hexVal c).isNone) = true := by
          simp [hc1, hc2] at h ⊢
          rcases h with h | h
          · exact Or.inl (by omega)
          · exact Or.inr h
        simp [decodeHexChars, hc1, hc2, decodeHexChars_malformed rest hrest]

/-- C7: for every byte buffer, including the empty buffer, encoding it as
lower-case even-length hex text and then decoding that text yields the
original buffer (and the text indeed has two characters per byte). -/
theorem hex_roundtrip (bs : List Nat) (h : ∀ b ∈ bs, b < 256) :
    decodeHex (encodeHex bs) = some bs
    ∧ (encodeHex bs).length = 2 * bs.length :=
  ⟨decodeHexChars_encode bs h, encodeHexChars_length bs⟩

/-- Witness for hex_roundtrip at the concrete buffer [0, 171, 255]. -/
theorem hex_roundtrip_witness :
    decodeHex (encodeHex [0, 171, 255]) = some [0, 171, 255]
    ∧ (encodeHex [0, 171, 255]).length = 2 * ([0, 171, 255] : List Nat).length :=
  hex_roundtrip [0, 171, 255] (by decide)

/-- C8: for every text of odd length or containing a non-hex character,
APDU hex decoding fails by returning none (the model is a total function,
so no panic is possible, and no partial buffer is ever produced). -/
theorem hex_decode_rejects_malformed (s : String) (h : malformedHex s = true) :
    decodeHex s = none :=
  decodeHexChars_malformed s.data h

/-- Witness for hex_decode_rejects_malformed at the concrete text 0g. -/
theorem hex_decode_rejects_malformed_witness : decodeHex "0g" = none :=
  hex_decode_rejects_malformed "0g" (by decide)

/-- C1: disposal of a SpeculosClient handle issues exactly one termination
request for the owned subprocess, whatever the process state (in
particular also when it has already exited, where the kill request itself
errors), and the disposal path returns no error channel at all: its result
is the event trace and the final process state, which is never running
afterwards. -/
theorem drop_always_requests_kill (c : Child) :
    (dropSpeculosClient c).1 = [DropEvent.killRequested c.kill.1]
    ∧ (dropSpeculosClient c).2.running = false := by
  refine ⟨rfl, ?_⟩
  rcases c with ⟨r⟩
  cases r <;> simp [dropSpeculosClient, Child.kill]

/-- C3 evaluation: when the spawn succeeds but the stderr stream ends
immediately (the process exited before emitting the readiness marker),
the constructor still returns a fully-built handle with no error — the
scan loop simply ends and construction proceeds. -/
theorem new_ok_despite_early_exit :
    speculosNew 5000 (Except.ok (Child.mk false)) []
      = Except.ok (SpeculosClient.mk (Child.mk false) 5000) := rfl

/-- C4: every AutomationAction value encodes as an array with exactly the
arity and field order of its variant, with button codes 1 for left and 2
for right. -/
theorem action_encoding_exact (p : Bool) (x y : Nat) (t : Bool) (v : String) (bv : Bool) :
    serializeAction (AutomationAction.button Button.left p)
        = Json.arr [Json.str "button", Json.num 1, Json.bool p]
    ∧ serializeAction (AutomationAction.button Button.right p)
        = Json.arr [Json.str "button", Json.num 2, Json.bool p]
    ∧ serializeAction (AutomationAction.finger x y t)
        = Json.arr [Json.str "finger", Json.num x, Json.num y, Json.bool t]
    ∧ serializeAction (AutomationAction.setbool v bv)
        = Json.arr [Json.str "setbool", Json.str v, Json.bool bv]
    ∧ serializeAction AutomationAction.exit = Json.arr [Json.str "exit"] :=
  ⟨rfl, rfl, rfl, rfl, rfl⟩

/-- C5: every AutomationCondition encodes as the two-element ordered array
of its variable name then its boolean value, never as a named-field
object. -/
theorem condition_encoding_exact (c : AutomationCondition) :
    serializeCondition c = Json.arr [Json.str c.varname, Json.bool c.value]
    ∧ (serializeCondition c).isObj = false :=
  ⟨rfl, rfl⟩

/-- C6: the encoded automation request carries version exactly 1 and the
encoded rules; each rule's key list contains the four optional matcher
keys exactly when the corresponding option is present (absent options
contribute no key at all), and each present key maps to the encoded
value. -/
theorem automation_request_encoding (rules : List AutomationRule) (r : AutomationRule) :
    serializeAutomationRequest rules
        = Json.obj [("version", Json.num 1), ("rules", Json.arr (rules.map serializeRule))]
    ∧ (serializeRule r).objKeys
        = (if r.text.isSome then ["text"] else [])
          ++ (if r.regexp.isSome then ["regexp"] else [])
          ++ (if r.x.isSome then ["x"] else [])
          ++ (if r.y.isSome then ["y"] else [])
          ++ ["conditions", "actions"]
    ∧ (serializeRule r).lookup "text" = r.text.map Json.str
    ∧ (serializeRule r).lookup "regexp" = r.regexp.map Json.str
    ∧ (serializeRule r).lookup "x" = r.x.map Json.num
    ∧ (serializeRule r).lookup "y" = r.y.map Json.num := by
  rcases r with ⟨t, re, x, y, cs, as⟩
  refine ⟨rfl, ?_, ?_, ?_, ?_, ?_⟩ <;>
    cases t <;> cases re <;> cases x <;> cases y <;>
      simp [serializeRule, Json.objKeys, Json.lookup, lookupField]

/-- C10: every encoded rule always carries the conditions and actions keys,
mapped to the arrays of encoded conditions and actions (hence empty
arrays when the lists are empty). -/
theorem rule_lists_always_present (r : AutomationRule) :
    (serializeRule r).lookup "conditions"
        = some (Json.arr (r.conditions.map serializeCondition))
    ∧ (serializeRule r).lookup "actions"
        = some (Json.arr (r.actions.map serializeAction)) := by
  rcases r with ⟨t, re, x, y, cs, as⟩
  refine ⟨?_, ?_⟩ <;>
    cases t <;> cases re <;> cases x <;> cases y <;>
      simp [serializeRule, Json.lookup, lookupField]

/-- A transport-successful response whose body is malformed (hex text of
odd length in the data field). -/
def malformedBodyResponse : HttpResponse :=
  HttpResponse.mk 200 (Json.obj [("data", Json.str "abc")])

/-- C2 counterexample: on a transport-successful response whose body holds
odd-length hex text, apdu neither returns an error to the caller nor any
byte buffer — it panics (the unwrap on the body parse). -/
theorem apdu_malformed_counterexample :
    malformedHex "abc" = true
    ∧ (apduOp (Except.ok malformedBodyResponse)).errOf = none
    ∧ (apduOp (Except.ok malformedBodyResponse)).okOf = none
    ∧ apduOp (Except.ok malformedBodyResponse) = RustOutcome.panicked := by
  refine ⟨by decide, ?_, ?_, ?_⟩ <;> rfl

/-- C2 amended: on every transport-successful response whose body fails to
parse as a PostApduResponse, apdu panics; in particular it never returns
a default or empty byte buffer, but the failure is a panic rather than an
error value returned to the caller. -/
theorem apdu_malformed_panics (r : HttpResponse)
    (h : parseApduResponse r.body = none) :
    apduOp (Except.ok r) = RustOutcome.panicked
    ∧ (apduOp (Except.ok r)).okOf = none := by
  refine ⟨?_, ?_⟩ <;> simp [apduOp, h, RustOutcome.okOf]

/-- Witness for apdu_malformed_panics at the concrete malformed response. -/
theorem apdu_malformed_panics_witness :
    apduOp (Except.ok malformedBodyResponse) = RustOutcome.panicked
    ∧ (apduOp (Except.ok malformedBodyResponse)).okOf = none :=
  apdu_malformed_panics malformedBodyResponse rfl

/-- A transport-successful response with the non-success status 300. -/
def redirectResponse : HttpResponse :=
  HttpResponse.mk 300 (Json.obj [])

/-- C9 counterexample: status 300 is not a success status, the transport
succeeded, and yet automation returns no error for it — the status check
only converts client-error and server-error statuses. -/
theorem automation_ok_on_status_300 :
    isSuccessStatus redirectResponse.status = false
    ∧ automationOp (Except.ok redirectResponse) = Except.ok () := by
  refine ⟨by decide, ?_⟩
  simp [automationOp, errorForStatus, redirectResponse]

/-- C9 amended: automation converts every client-error or server-error
status (400-599) into a returned error even though the transport
succeeded, while the result of apdu depends only on the response body and
never on the status code. -/
theorem http_status_asymmetry (r q : HttpResponse) (s : Nat)
    (h4 : 400 ≤ r.status) (h5 : r.status ≤ 599) :
    automationOp (Except.ok r)
        = Except.error (SpeculosError.ReqwestError (some r.status))
    ∧ apduOp (Except.ok (HttpResponse.mk s q.body)) = apduOp (Except.ok q) := by
  refine ⟨?_, rfl⟩
  simp [automationOp, errorForStatus, h4, h5]

/-- Witness for http_status_asymmetry at status 404 and an arbitrary pair
of responses sharing a body. -/
theorem http_status_asymmetry_witness :
    automationOp (Except.ok (HttpResponse.mk 404 (Json.obj [])))
        = Except.error (SpeculosError.ReqwestError (some 404))
    ∧ apduOp (Except.ok (HttpResponse.mk 0 (HttpResponse.mk 500 (Json.obj [])).body))
        = apduOp (Except.ok (HttpResponse.mk 500 (Json.obj []))) :=
  http_status_asymmetry (HttpResponse.mk 404 (Json.obj []))
    (HttpResponse.mk 500 (Json.obj [])) 0 (by decide) (by decide)

end Speculos
